import Mathlib

/-!
Verification model for the `gis_tool` buffer pipeline
(`src/gis_tool/buffer_processor.py`) and report ingestion
(`src/gis_tool/data_loader.py`).

Geometry, projection and pandas primitives are external collaborators of the
repository (spec §1, §6): they are represented abstractly, either as fields of
a `GeomEngine` record (validity, emptiness, buffer, difference, intersection,
reprojection, repair) or as fields of a `PyExt` record (date parsing, float
parsing, point reprojection).  Helper modules of the repository that are not
under `src/` (`spatial_utils.py`, `utils.py`, `config.py`,
`geometry_cleaning.py`, `parallel_utils.py`, `buffer_utils.py`) are modelled
from the spec; each such definition carries a doc comment starting with
`Modelled from the spec:`.  File I/O (`gpd.read_file`, `to_file`) is modelled
by passing the loaded layers as arguments and returning the written layer as
part of the result.
-/

namespace GisTool

/-- A coordinate reference system, identified by its authority code
(spec §3: equality is by code). -/
abbrev CRS := String

/-- The geometry kinds distinguished by the pipeline
(spec §3: the `Geometry` variant). -/
inductive GeomKind
  | point
  | lineString
  | multiLineString
  | multiPoint
  | polygon
  | multiPolygon
  deriving DecidableEq, Repr, Fintype

/-- The computational-geometry and projection collaborator (spec §1, §6):
validity and emptiness predicates, buffer-by-distance, set-difference,
intersection test and reprojection over an abstract geometry carrier `G`.
The field `fix` models `gis_tool/geometry_cleaning.fix_geometry`, which is
repository code not under `src/`; it is modelled from the spec (§4.2(c):
a structural repair attempt that may still leave an invalid or empty
geometry, or no geometry at all). -/
structure GeomEngine (G : Type) where
  geomType : G → GeomKind
  isValid : G → Bool
  isEmpty : G → Bool
  buffer : G → ℚ → G
  difference : G → G → G
  intersects : G → G → Bool
  reproject : CRS → CRS → G → G
  fix : G → Option G

/-- One row of a GeoDataFrame: an attribute record plus one geometry cell,
which may be missing (`none` models a null geometry). -/
structure GRow (α G : Type) where
  attrs : α
  geometry : Option G
  deriving DecidableEq, Repr

/-- A GeoDataFrame: an ordered sequence of rows plus an optional CRS
(spec §3: `SpatialFeatureSet`). -/
structure GDF (α G : Type) where
  rows : List (GRow α G)
  crs : Option CRS
  deriving DecidableEq, Repr

/-- `gdf.geom_type` of one row: `none` for a null geometry (pandas yields
`None` there, which is outside every kind list). -/
def GeomEngine.rowKind (e : GeomEngine G) (r : GRow α G) : Option GeomKind :=
  r.geometry.map e.geomType

/-- `is_valid` of one geometry cell; a missing geometry is not valid
(geopandas yields `False` for missing values). -/
def GeomEngine.cellValid (e : GeomEngine G) : Option G → Bool
  | some g => e.isValid g
  | none => false

/-- `is_empty` of one geometry cell; geopandas yields `False` for missing
values. -/
def GeomEngine.cellEmpty (e : GeomEngine G) : Option G → Bool
  | some g => e.isEmpty g
  | none => false

/-- `fix_geometry` applied to one geometry cell (`.apply(fix_geometry)` maps
over the geometry column). -/
def fixCell (e : GeomEngine G) (og : Option G) : Option G :=
  og.bind e.fix

/-- `gdf.set_crs(c, allow_override=True)`: assign a CRS without touching the
geometries. -/
def GDF.set_crs (c : CRS) (g : GDF α G) : GDF α G :=
  { g with crs := some c }

/-- `gdf.to_crs(t)`: reproject every geometry into the target CRS.  When the
CRS already equals the target this is a no-op (spec §4.1: reprojection is
skipped when CRS already equals target).  The `none` case is unreachable in
the embedded pipelines, because every call site first ensures a CRS is set;
it is modelled as a plain CRS assignment. -/
def GDF.to_crs (e : GeomEngine G) (t : CRS) (g : GDF α G) : GDF α G :=
  if g.crs = some t then g
  else
    match g.crs with
    | none => { g with crs := some t }
    | some s =>
        { rows := g.rows.map fun r => { r with geometry := r.geometry.map (e.reproject s t) },
          crs := some t }

/-- `gdf.to_crs` with an optional target, used where the source passes a CRS
read from another layer; the `none` case is unreachable in the embedded
pipelines. -/
def GDF.to_crsO (e : GeomEngine G) (t : Option CRS) (g : GDF α G) : GDF α G :=
  match t with
  | none => g
  | some c => g.to_crs e c

/-- Boolean row filter, `gdf[mask]`. -/
def GDF.filterRows (p : GRow α G → Bool) (g : GDF α G) : GDF α G :=
  { g with rows := g.rows.filter p }

/-- Assignment to the geometry column, `gdf[geometry] = f(gdf.geometry)`. -/
def GDF.mapGeom (f : Option G → Option G) (g : GDF α G) : GDF α G :=
  { g with rows := g.rows.map fun r => { r with geometry := f r.geometry } }

/-- The process configuration surface consumed by the core (spec §6):
default buffer distance in feet, default CRS values, the CRS classification
exposed by the projection collaborator, the metric projection used to ensure
projected CRS, and the extension-to-driver registry.  `gis_tool/config.py`
is not under `src/`; the fields follow the spec and the constants quoted in
the source's docstrings (EPSG 4326 geographic default, EPSG 32610 buffer
layer default). -/
structure Config where
  defaultBufferDistanceFt : ℚ
  defaultCrs : CRS
  geographicCrs : CRS
  bufferLayerCrs : CRS
  metricCrs : CRS
  isGeographic : CRS → Bool
  getDriver : String → String

/-- Modelled from the spec: `gis_tool/utils.convert_ft_to_m` is not under
`src/`; §4.3 fixes the conversion as multiplication by the exact factor
0.3048. -/
def convert_ft_to_m (ft : ℚ) : ℚ :=
  ft * 0.3048

/-- The buffer distance in meters used by `create_buffer_with_geopandas`
(buffer_processor.py lines 52-54): the caller's distance in feet, or the
configured default when the caller passes none, converted by
`convert_ft_to_m`. -/
def buffer_distance_m_of (cfg : Config) (buffer_distance_ft : Option ℚ) : ℚ :=
  convert_ft_to_m (match buffer_distance_ft with
    | none => cfg.defaultBufferDistanceFt
    | some ft => ft)

/-- Modelled from the spec: `gis_tool/spatial_utils.ensure_projected_crs` is
not under `src/`; §4.1: if the current CRS is geographic, reproject to a
metric projection before any distance-based operation. -/
def ensure_projected_crs (e : GeomEngine G) (cfg : Config) (g : GDF α G) : GDF α G :=
  match g.crs with
  | none => g
  | some c => if cfg.isGeographic c then g.to_crs e cfg.metricCrs else g

/-- Modelled from the spec: `gis_tool/spatial_utils.validate_and_reproject_crs`
is not under `src/`; §4.1: assign the configured default when the CRS is
unset, then reproject when the CRS differs from the target. -/
def validate_and_reproject_crs (e : GeomEngine G) (cfg : Config)
    (g : GDF α G) (target : Option CRS) : GDF α G :=
  let g1 := if g.crs = none then g.set_crs cfg.defaultCrs else g
  g1.to_crsO e target

/-- Modelled from the spec:
`gis_tool/buffer_utils.log_and_filter_invalid_geometries` is not under
`src/`; §4.2(b),(d): drop null geometries and drop any geometry still invalid
or empty, logging under the given label. -/
def log_and_filter_invalid_geometries (e : GeomEngine G)
    (g : GDF α G) (_label : String) : GDF α G :=
  g.filterRows fun r =>
    match r.geometry with
    | none => false
    | some geo => e.isValid geo && !(e.isEmpty geo)

/-- Modelled from the spec: `gis_tool/utils.clean_geodataframe` is not under
`src/`; §4.2(b): drop rows whose geometry is null. -/
def clean_geodataframe (g : GDF α G) : GDF α G :=
  g.filterRows fun r => r.geometry.isSome

/-- Modelled from the spec: `gis_tool/buffer_utils.subtract_park_from_geom`
is not under `src/`; §4.4 step (4): the difference is taken against each
exclusion geometry in turn, accumulating the remainder. -/
def subtract_park_from_geom (e : GeomEngine G) (geo : G) (parks_geoms : List G) : G :=
  parks_geoms.foldl e.difference geo

/-- Modelled from the spec: `gis_tool/parallel_utils.parallel_process` is not
under `src/`; §5: tasks are pure functions of their inputs and results are
recombined in the original submission order, so the parallel dispatch equals
an in-order map. -/
def parallel_process (f : α → β) (args : List α) : List β :=
  args.map f

/-- Modelled from the spec: `gis_tool/spatial_utils.buffer_intersects_gas_lines`
is not under `src/`; §4.5: retain a buffer geometry only if it spatially
intersects at least one geometry in the given dataset. -/
def buffer_intersects_gas_lines (e : GeomEngine G)
    (buf : Option G) (gdf : GDF α G) : Bool :=
  gdf.rows.any fun r =>
    match buf, r.geometry with
    | some b, some s => e.intersects b s
    | _, _ => false

/-- Membership of a row's geometry kind in the list accepted for buffering
sources (buffer_processor.py line 69); a null geometry has kind `none` and is
outside the list. -/
def srcKindOk : Option GeomKind → Bool
  | some GeomKind.point => true
  | some GeomKind.lineString => true
  | some GeomKind.multiLineString => true
  | some GeomKind.multiPoint => true
  | _ => false

/-- Membership of a row's geometry kind in the Polygon/MultiPolygon list
(buffer_processor.py lines 163 and 298). -/
def polyKindOk : Option GeomKind → Bool
  | some GeomKind.polygon => true
  | some GeomKind.multiPolygon => true
  | _ => false

/-- The geometry kinds accepted for buffering sources
(buffer_processor.py line 69). -/
def allowedSourceKind (e : GeomEngine G) (r : GRow α G) : Bool :=
  srcKindOk (e.rowKind r)

/-- The geometry kinds accepted for exclusion polygons and buffer layers
(buffer_processor.py lines 163 and 298). -/
def polygonKind (e : GeomEngine G) (r : GRow α G) : Bool :=
  polyKindOk (e.rowKind r)

/-- The final validity sweep `is_valid & ~is_empty`
(buffer_processor.py lines 122 and 200). -/
def valid_nonempty (e : GeomEngine G) (r : GRow α G) : Bool :=
  e.cellValid r.geometry && !(e.cellEmpty r.geometry)

/-- The merge-stage cleaning filter `notnull & is_valid & ~is_empty`
(buffer_processor.py lines 334-342). -/
def notnull_valid_nonempty (e : GeomEngine G) (r : GRow α G) : Bool :=
  r.geometry.isSome && e.cellValid r.geometry && !(e.cellEmpty r.geometry)

/-- The buffering step of `create_buffer_with_geopandas`
(buffer_processor.py lines 86-92): either the multiprocessing dispatch over
`(geometry, distance)` pairs or the sequential `geometry.buffer(distance)`;
both assign the transformed column back row by row. -/
def bufferRowsBranch (e : GeomEngine G) (use_multiprocessing : Bool)
    (buffer_distance_m : ℚ) (g : GDF α G) : GDF α G :=
  if use_multiprocessing then
    let args := g.rows.map fun r => (r.geometry, buffer_distance_m)
    let new_geoms := parallel_process
      (fun p : Option G × ℚ => p.1.map fun geo => e.buffer geo p.2) args
    { g with rows := List.zipWith (fun r og => { r with geometry := og }) g.rows new_geoms }
  else
    g.mapGeom fun og => og.map fun geo => e.buffer geo buffer_distance_m

/-- The subtraction step of `subtract_parks_from_buffer`
(buffer_processor.py lines 188-196): either the multiprocessing dispatch over
`(geometry, parks_geoms)` pairs or the sequential per-geometry
`subtract_park_from_geom`; both assign the transformed column back row by
row. -/
def subtractRowsBranch (e : GeomEngine G) (use_multiprocessing : Bool)
    (parks_geoms : List G) (g : GDF α G) : GDF α G :=
  if use_multiprocessing then
    let args := g.rows.map fun r => (r.geometry, parks_geoms)
    let new_geoms := parallel_process
      (fun p : Option G × List G =>
        p.1.map fun geo => subtract_park_from_geom e geo p.2) args
    { g with rows := List.zipWith (fun r og => { r with geometry := og }) g.rows new_geoms }
  else
    g.mapGeom fun og => og.map fun geo => subtract_park_from_geom e geo parks_geoms

/-- `subtract_parks_from_buffer` (buffer_processor.py lines 133-208).
`parks` is the layer read from `parks_path`; `none` models no path supplied.
With no path the input is returned as a copy (line 153).  Otherwise the parks
layer is CRS-validated, restricted to Polygon/MultiPolygon, repaired and
filtered; the buffer layer is repaired and filtered; the parks geometries are
subtracted from every buffer geometry; and the result is repaired and swept
for validity. -/
def subtract_parks_from_buffer (e : GeomEngine G) (cfg : Config)
    (buffer_gdf : GDF α G) (parks : Option (GDF β G))
    (use_multiprocessing : Bool) : GDF α G :=
  match parks with
  | none => buffer_gdf
  | some parks0 =>
      let parks_gdf := validate_and_reproject_crs e cfg parks0 buffer_gdf.crs
      let parks_gdf := parks_gdf.filterRows (polygonKind e)
      let parks_gdf := parks_gdf.filterRows fun r => r.geometry.isSome
      let parks_gdf := parks_gdf.mapGeom (fixCell e)
      let parks_gdf := log_and_filter_invalid_geometries e parks_gdf ("Parks")
      let buffer1 := buffer_gdf.filterRows fun r => r.geometry.isSome
      let buffer1 := buffer1.mapGeom (fixCell e)
      let buffer1 := log_and_filter_invalid_geometries e buffer1 ("Buffers")
      let parks_geoms := parks_gdf.rows.filterMap fun r => r.geometry
      let buffer1 := subtractRowsBranch e use_multiprocessing parks_geoms buffer1
      let buffer1 := buffer1.mapGeom (fixCell e)
      buffer1.filterRows (valid_nonempty e)

/-- `create_buffer_with_geopandas` (buffer_processor.py lines 27-130).
`gas_lines_gdf` is the layer read from `input_gas_lines_path`; `parks` is the
layer behind `parks_path` (`none` when no path is supplied).  The source
resolves the buffer distance, assigns a default CRS when missing, ensures a
projected CRS, filters geometry kinds and invalid rows, buffers, repairs,
optionally subtracts parks (with sequential subtraction: line 109 passes no
multiprocessing flag), filters by intersection against `gas_lines_gdf` as it
stands at that point (lines 113-116), cleans, and sweeps validity. -/
def create_buffer_with_geopandas (e : GeomEngine G) (cfg : Config)
    (gas_lines_gdf : GDF α G) (buffer_distance_ft : Option ℚ)
    (parks : Option (GDF β G)) (use_multiprocessing : Bool) : GDF α G :=
  let buffer_distance_m := buffer_distance_m_of cfg buffer_distance_ft
  let g := if gas_lines_gdf.crs = none
    then gas_lines_gdf.set_crs cfg.defaultCrs else gas_lines_gdf
  let g := ensure_projected_crs e cfg g
  let g := g.filterRows (allowedSourceKind e)
  let g := log_and_filter_invalid_geometries e g ("Gas Lines")
  if g.rows.isEmpty then g
  else
    let g := bufferRowsBranch e use_multiprocessing buffer_distance_m g
    let g := g.mapGeom (fixCell e)
    let g := log_and_filter_invalid_geometries e g ("Buffered Gas Lines")
    if g.rows.isEmpty then g
    else
      let g := match parks with
        | some p => subtract_parks_from_buffer e cfg g (some p) false
        | none => g
      let g := { g with rows := g.rows.filter fun r => buffer_intersects_gas_lines e r.geometry g }
      let g := clean_geodataframe g
      g.filterRows (valid_nonempty e)

/-- The Python exceptions surfaced by the merge
(buffer_processor.py lines 299, 307, 325, and `pd.concat` on an empty frame
list at line 346). -/
inductive PyError
  | valueError (msg : String)
  deriving DecidableEq, Repr

deriving instance DecidableEq for Except

/-- The geometry-type harmonization of the planning layer
(buffer_processor.py lines 303-327): reject mixed geometry kinds, keep
polygonal layers, convert Point/LineString layers by buffering in EPSG 3857
followed by a zero-distance buffer and reprojecting back, and reject any
other uniform kind. -/
def merge_harmonize_future (e : GeomEngine G)
    (point_buffer_distance : ℚ) (future : GDF α G) :
    Except PyError (GDF α G) :=
  if future.rows.isEmpty then .ok future
  else
    match (future.rows.map fun r => e.rowKind r).dedup with
    | [k] =>
        match k with
        | some GeomKind.polygon => .ok future
        | some GeomKind.multiPolygon => .ok future
        | some GeomKind.point =>
            .ok (merge_convert_points e point_buffer_distance future)
        | some GeomKind.lineString =>
            .ok (merge_convert_points e point_buffer_distance future)
        | _ => .error (.valueError
            ("Unsupported Future Development geometry type for conversion."))
    | _ => .error (.valueError
        ("Future Development shapefile has mixed geometry types"))
where
  /-- The Point/LineString conversion body (lines 317-323): reproject to
  EPSG 3857, buffer by the point/line distance, apply a zero-distance buffer,
  and carry the result back to the original CRS. -/
  merge_convert_points (e : GeomEngine G) (d : ℚ) (future : GDF α G) : GDF α G :=
    let projected := future.to_crs e ("EPSG:3857")
    let buffered := projected.mapGeom fun og =>
      og.map fun geo => e.buffer (e.buffer geo d) 0
    match future.crs with
    | some orig =>
        { future with rows := (buffered.to_crs e orig).rows }
    | none => { future with rows := buffered.rows }

/-- The CRS-resolution stage of the merge (buffer_processor.py lines
264-296): assign the configured defaults where a CRS is missing, validate
and reproject the buffer layer to the planning layer's CRS, ensure both
layers are projected, and reproject the buffer layer again if the CRS still
differ.  Returns the transformed `(buffer, future)` pair. -/
def merge_crs_stage (e : GeomEngine G) (cfg : Config)
    (buffer_gdf future_dev_gdf : GDF α G) : GDF α G × GDF α G :=
  let future := if future_dev_gdf.crs = none
    then future_dev_gdf.set_crs cfg.geographicCrs else future_dev_gdf
  let buffer := if buffer_gdf.crs = none
    then buffer_gdf.set_crs cfg.bufferLayerCrs else buffer_gdf
  let buffer := validate_and_reproject_crs e cfg buffer future.crs
  let buffer := ensure_projected_crs e cfg buffer
  let future := ensure_projected_crs e cfg future
  let buffer := if buffer.crs ≠ future.crs then buffer.to_crsO e future.crs else buffer
  (buffer, future)

/-- The cleaning, concatenation, output-CRS resolution and persistence tail
of the merge (buffer_processor.py lines 329-367): repair both layers, drop
null/invalid/empty geometries, concatenate the non-empty frames (`pd.concat`
raises `ValueError` on an empty frame list), resolve the output CRS,
reproject, and return the merged layer together with the written layer
(`none` when the empty-result branch skips the write). -/
def merge_tail (e : GeomEngine G) (buffer future : GDF α G)
    (output_crs : Option CRS) : Except PyError (GDF α G × Option (GDF α G)) :=
  let future := future.mapGeom (fixCell e)
  let buffer := buffer.mapGeom (fixCell e)
  let future := future.filterRows (notnull_valid_nonempty e)
  let buffer := buffer.filterRows (notnull_valid_nonempty e)
  let frames := [future, buffer].filter fun d => !d.rows.isEmpty
  if frames.isEmpty then
    .error (.valueError ("No objects to concatenate"))
  else
    let merged : GDF α G :=
      { rows := (frames.map fun d => d.rows).flatten, crs := future.crs }
    let resolved := match output_crs with
      | some c => some c
      | none => if !buffer.rows.isEmpty then buffer.crs else future.crs
    let merged := merged.to_crsO e resolved
    if merged.rows.isEmpty then
      .ok ({ rows := [], crs := future.crs }, none)
    else
      .ok (merged, some merged)

/-- `merge_buffers_into_planning_file` (buffer_processor.py lines 212-371).
The two file arguments are modelled by the loaded layers; the returned pair
is the function's return value together with the layer written to the
planning file (`none` when no write occurs, matching the fact that the only
`to_file` call, line 364, executes after every raise site).  The source
returns the planning layer unchanged when the buffer layer is empty, resolves
CRS (`merge_crs_stage`), rejects a non-polygonal buffer layer, harmonizes the
planning layer's geometry type (`merge_harmonize_future`), and cleans, merges
and persists (`merge_tail`). -/
def merge_buffers_into_planning_file (e : GeomEngine G) (cfg : Config)
    (buffer_gdf : GDF α G) (future_dev_gdf : GDF α G)
    (point_buffer_distance : ℚ) (output_crs : Option CRS) :
    Except PyError (GDF α G × Option (GDF α G)) :=
  if buffer_gdf.rows.isEmpty then
    .ok (future_dev_gdf, none)
  else
    let bf := merge_crs_stage e cfg buffer_gdf future_dev_gdf
    if !(bf.1.rows.all (polygonKind e)) then
      .error (.valueError
        ("Buffer shapefile must contain only polygon or multipolygon geometries."))
    else
      match merge_harmonize_future e point_buffer_distance bf.2 with
      | .error err => .error err
      | .ok future => merge_tail e bf.1 future output_crs

/-! ### Report ingestion (`src/gis_tool/data_loader.py`) -/

/-- A pandas cell value as used by the ingestion code: strings, numbers,
timestamps, the missing values `NaT`, `NaN` and `None`, and point
geometries. -/
inductive PyVal
  | str (s : String)
  | num (q : ℚ)
  | ts (t : Int)
  | naT
  | nan
  | pyNone
  | point (x y : ℚ)
  deriving DecidableEq, Repr

/-- `pd.isna` on a cell value. -/
def PyVal.isna : PyVal → Bool
  | .naT => true
  | .nan => true
  | .pyNone => true
  | _ => false

/-- `.lower()` on a cell value; only strings are lowered (the source only
applies it to the string-typed material argument). -/
def pyLower : PyVal → PyVal
  | .str s => .str s.toLower
  | v => v

/-- The external library surface of the ingestion module (spec §6):
`pd.to_datetime` with an explicit format, the fuzzy `dateutil` parser,
Python's `float` constructor, and point reprojection used by `to_crs`.  All
are collaborators outside the repository. -/
structure PyExt where
  toDatetimeFmt : String → String → Option Int
  parseDateFuzzy : String → Option Int
  pyFloat : String → Option ℚ
  projPt : CRS → CRS → ℚ × ℚ → ℚ × ℚ

/-- The fixed, ordered attribute schema (data_loader.py line 50). -/
def SCHEMA_FIELDS : List String :=
  [("Name"), ("Date"), ("PSI"), ("Material"), ("geometry")]

/-- `robust_date_parse` (data_loader.py lines 53-86): `NaT` for missing
input, pass timestamps through, try the three fixed formats in order on
strings and then the fuzzy parser, and `NaT` for every other type. -/
def robust_date_parse (ext : PyExt) (date_val : PyVal) : PyVal :=
  if date_val.isna then .naT
  else
    match date_val with
    | .ts t => .ts t
    | .str s =>
        match [("%Y-%m-%d"), ("%d/%m/%Y"), ("%m/%d/%Y")].findSome?
            (fun fmt => ext.toDatetimeFmt fmt s) with
        | some t => .ts t
        | none =>
            match ext.parseDateFuzzy s with
            | some t => .ts t
            | none => .naT
    | _ => .naT

/-- One attribute row of an ingestion frame, keyed by column name. -/
abbrev PRow := List (String × PyVal)

/-- A pandas/geopandas frame as used by the ingestion code: an explicit
column list, rows keyed by column name, and an optional CRS. -/
structure Frame where
  cols : List String
  rows : List PRow
  crs : Option CRS
  deriving DecidableEq, Repr

/-- `row[k]`: look a cell up by column name. -/
def rowGet (r : PRow) (k : String) : PyVal :=
  match r.find? fun p => p.1 = k with
  | some p => p.2
  | none => .pyNone

/-- `gdf.to_crs(t)` for ingestion frames: point cells are reprojected by the
projection collaborator; the CRS-less case is unreachable because every call
site first checks that a CRS is set. -/
def Frame.to_crs (ext : PyExt) (t : CRS) (f : Frame) : Frame :=
  match f.crs with
  | none => f
  | some s =>
      { f with
        crs := some t,
        rows := f.rows.map fun r => r.map fun p =>
          match p.2 with
          | .point x y =>
              (p.1, match ext.projPt s t (x, y) with
                | (a, b) => .point a b)
          | _ => p }

/-- `make_feature` (data_loader.py lines 89-126): a single-row frame over
`SCHEMA_FIELDS` in order, with the material lowered and the supplied CRS. -/
def make_feature (name date psi material geometry : PyVal) (crs : CRS) : Frame :=
  { cols := SCHEMA_FIELDS,
    rows := [[(SCHEMA_FIELDS[0]!, name),
              (SCHEMA_FIELDS[1]!, date),
              (SCHEMA_FIELDS[2]!, psi),
              (SCHEMA_FIELDS[3]!, pyLower material),
              (SCHEMA_FIELDS[4]!, geometry)]],
    crs := some crs }

/-- `align_feature_dtypes` (data_loader.py lines 199-209): reindex the new
feature to the base frame's columns, filling absent columns with `NaN`.  The
`astype` dtype coercion is value-preserving in this model. -/
def align_feature_dtypes (new_feat : Frame) (base : Frame) : Frame :=
  { cols := base.cols,
    rows := new_feat.rows.map fun r => base.cols.map fun c =>
      (c, match r.find? fun p => p.1 = c with
        | some p => p.2
        | none => .nan),
    crs := new_feat.crs }

/-- `dropna(how="all")`: keep only rows with at least one non-missing
value. -/
def dropna_all (f : Frame) : Frame :=
  { f with rows := f.rows.filter fun r => r.any fun p => !p.2.isna }

/-- The mutable state threaded through `create_pipeline_features`: the
processed-report names, the per-call processed pipeline names, the growing
gas lines frame, and the new-features flag. -/
structure PipeState where
  processed_reports : Finset String
  processed_pipelines : Finset PyVal
  gas : Frame
  features_added : Bool
  deriving DecidableEq

/-- The per-row body of the GeoJSON loop (data_loader.py lines 225-248):
build the feature, align it to the gas lines frame, drop all-missing rows,
and append the survivors.  The MongoDB upsert is an external persistence
call with no effect on the returned values. -/
def process_geojson_row (ext : PyExt) (sr : CRS) (st : PipeState) (r : PRow) :
    PipeState :=
  let point := rowGet r ("geometry")
  let parsed_date := robust_date_parse ext (rowGet r ("Date"))
  let new_feature :=
    make_feature (rowGet r ("Name")) parsed_date (rowGet r ("PSI"))
      (rowGet r ("Material")) point sr
  let new_feature := align_feature_dtypes new_feature st.gas
  let valid_rows := dropna_all new_feature
  if valid_rows.rows.isEmpty then st
  else
    { st with
      gas := { st.gas with rows := st.gas.rows ++ valid_rows.rows },
      processed_pipelines := insert (rowGet r ("Name")) st.processed_pipelines,
      features_added := true }

/-- The per-report body of the GeoJSON loop (data_loader.py lines 212-250):
skip already-processed reports; mark a report missing required fields as
processed without touching the frame; otherwise process every row and mark
the report processed. -/
def process_geojson_report (ext : PyExt) (sr : CRS) (st : PipeState)
    (nr : String × Frame) : PipeState :=
  if nr.1 ∈ st.processed_reports then st
  else
    let required_fields := SCHEMA_FIELDS.filter fun c => c ≠ ("geometry")
    let missing_fields := required_fields.filter fun c => !(nr.2.cols.contains c)
    if !missing_fields.isEmpty then
      { st with processed_reports := insert nr.1 st.processed_reports }
    else
      let st := nr.2.rows.foldl (process_geojson_row ext sr) st
      { st with processed_reports := insert nr.1 st.processed_reports }

/-- Whether the token sequence `p` starts the sequence `l`. -/
def startsWithSeq [DecidableEq α] : List α → List α → Bool
  | [], _ => true
  | _ :: _, [] => false
  | a :: as, b :: bs => a = b && startsWithSeq as bs

/-- Whether the token sequence `p` occurs inside `l` (Python's `in` on
strings, applied to the underlying character lists). -/
def containsSeq [DecidableEq α] (p : List α) : List α → Bool
  | [] => startsWithSeq p []
  | b :: bs => startsWithSeq p (b :: bs) || containsSeq p bs

/-- `line.strip().split()`: split on whitespace, dropping empty pieces. -/
def pySplitWs (s : String) : List String :=
  (s.split fun c => c.isWhitespace).filter fun piece => piece ≠ ("")

/-- The per-line body of the TXT loop (data_loader.py lines 259-303): skip
header lines, skip lines with fewer than seven fields or unparsable numbers,
dedupe by pipeline name, and otherwise append the new feature as in the
GeoJSON loop. -/
def process_txt_line (ext : PyExt) (sr : CRS) (st : PipeState) (line : String) :
    PipeState :=
  if containsSeq ("Id Name").toList line.toList then st
  else
    let data := pySplitWs line
    if data.length < 7 then st
    else
      match ext.pyFloat data[2]!, ext.pyFloat data[3]!, ext.pyFloat data[5]! with
      | some x, some y, some psi =>
          let line_name := data[1]!
          let date_completed := data[4]!
          let material := (data[6]!).toLower
          if PyVal.str line_name ∈ st.processed_pipelines then st
          else
            let point := PyVal.point x y
            let parsed_date := robust_date_parse ext (.str date_completed)
            let new_feature :=
              make_feature (.str line_name) parsed_date (.num psi)
                (.str material) point sr
            let new_feature := align_feature_dtypes new_feature st.gas
            let valid_rows := dropna_all new_feature
            if valid_rows.rows.isEmpty then st
            else
              { st with
                gas := { st.gas with rows := st.gas.rows ++ valid_rows.rows },
                processed_pipelines := insert (PyVal.str line_name) st.processed_pipelines,
                features_added := true }
      | _, _, _ => st

/-- The per-report body of the TXT loop (data_loader.py lines 253-305). -/
def process_txt_report (ext : PyExt) (sr : CRS) (st : PipeState)
    (nr : String × List String) : PipeState :=
  if nr.1 ∈ st.processed_reports then st
  else
    let st := nr.2.foldl (process_txt_line ext sr) st
    { st with processed_reports := insert nr.1 st.processed_reports }

/-- The per-report CRS normalization of the GeoJSON loop
(data_loader.py lines 191-197): reproject a report's frame to the target
reference when its CRS is set and differs. -/
def normalize_geojson_report (ext : PyExt) (sr : CRS) (nr : String × Frame) :
    String × Frame :=
  match nr.2.crs with
  | some c => if c ≠ sr then (nr.1, nr.2.to_crs ext sr) else nr
  | none => nr

/-- `create_pipeline_features` (data_loader.py lines 129-308): normalize the
CRS of the gas lines frame and of every GeoJSON report, then fold the GeoJSON
and TXT report loops over the state.  The MongoDB collection and flag only
drive the external upsert collaborator and do not influence the returned
values. -/
def create_pipeline_features (ext : PyExt)
    (geojson_reports : List (String × Frame))
    (txt_reports : List (String × List String))
    (gas_lines_gdf : Frame) (spatial_reference : CRS)
    (processed_reports : Option (Finset String)) :
    Finset String × Frame × Bool :=
  let processed := match processed_reports with
    | none => ∅
    | some s => s
  let gas := match gas_lines_gdf.crs with
    | some c => if c ≠ spatial_reference
        then gas_lines_gdf.to_crs ext spatial_reference else gas_lines_gdf
    | none => gas_lines_gdf
  let geojson_reports :=
    geojson_reports.map (normalize_geojson_report ext spatial_reference)
  let st : PipeState :=
    { processed_reports := processed, processed_pipelines := ∅,
      gas := gas, features_added := false }
  let st := geojson_reports.foldl (process_geojson_report ext spatial_reference) st
  let st := txt_reports.foldl (process_txt_report ext spatial_reference) st
  (st.processed_reports, st.gas, st.features_added)

/-! ### Concrete instances for evaluating the pipelines -/

/-- A small concrete geometry carrier: a geometry kind together with the set
of integer cells the shape covers. -/
abbrev IGeom := GeomKind × List Int

/-- One-step dilation of a cell set, the concrete stand-in for buffering. -/
def dilate (s : List Int) : List Int :=
  s.map (fun x => x - 1) ++ s ++ s.map fun x => x + 1

/-- A concrete geometry engine over `IGeom`: buffering dilates the cell set
and yields a polygon, difference and intersection are cell-set operations,
reprojection is the identity, every geometry is valid, and repair returns its
input. -/
def intEngine : GeomEngine IGeom where
  geomType g := g.1
  isValid _ := true
  isEmpty g := g.2.isEmpty
  buffer g _ := (GeomKind.polygon, dilate g.2)
  difference a b := (a.1, a.2.filter fun x => !(b.2.contains x))
  intersects a b := a.2.any fun x => b.2.contains x
  reproject _ _ g := g
  fix g := some g

/-- A concrete configuration: the defaults quoted in the source docstrings,
with EPSG 4326 as the only geographic CRS. -/
def testConfig : Config where
  defaultBufferDistanceFt := 25
  defaultCrs := "EPSG:4326"
  geographicCrs := "EPSG:4326"
  bufferLayerCrs := "EPSG:32610"
  metricCrs := "EPSG:32610"
  isGeographic c := c = ("EPSG:4326")
  getDriver _ := "ESRI Shapefile"

/-- A gas lines layer with a single line covering cell 0, in a projected
CRS. -/
def gasLineLayer : GDF Unit IGeom where
  rows := [{ attrs := (), geometry := some (GeomKind.lineString, [0]) }]
  crs := some ("EPSG:32610")

/-- A parks layer whose polygon covers cells -1 and 0: subtracting it from
the buffered line (cells -1, 0, 1) leaves only cell 1, which no longer
touches the source line at cell 0. -/
def parksLayer : GDF Unit IGeom where
  rows := [{ attrs := (), geometry := some (GeomKind.polygon, [-1, 0]) }]
  crs := some ("EPSG:32610")

/-- A buffer layer with no rows. -/
def emptyBufferLayer : GDF Unit IGeom where
  rows := []
  crs := some ("EPSG:32610")

/-- A planning layer mixing a Polygon row and a LineString row. -/
def mixedPlanningLayer : GDF Unit IGeom where
  rows := [{ attrs := (), geometry := some (GeomKind.polygon, [0]) },
           { attrs := (), geometry := some (GeomKind.lineString, [1]) }]
  crs := some ("EPSG:32611")

/-- A buffer layer with a single Polygon row whose geometry is empty: it
passes the polygon-kind gate but is dropped by the cleaning filter. -/
def emptyGeomBufferLayer : GDF Unit IGeom where
  rows := [{ attrs := (), geometry := some (GeomKind.polygon, []) }]
  crs := some ("EPSG:32610")

/-- A planning layer with no rows, in a projected CRS. -/
def emptyPlanningLayer : GDF Unit IGeom where
  rows := []
  crs := some ("EPSG:32611")

/-- A valid, non-empty polygonal buffer layer in a projected CRS. -/
def polyBufferLayer : GDF Unit IGeom where
  rows := [{ attrs := (), geometry := some (GeomKind.polygon, [5, 6]) }]
  crs := some ("EPSG:32610")

/-- A planning layer with a single valid polygon row. -/
def simplePlanningLayer : GDF Unit IGeom where
  rows := [{ attrs := (), geometry := some (GeomKind.polygon, [7]) }]
  crs := some ("EPSG:32611")

/-- An exclusion layer containing only a LineString row, so that no valid
Polygon/MultiPolygon geometry survives the kind filter. -/
def nonPolyParksLayer : GDF Unit IGeom where
  rows := [{ attrs := (), geometry := some (GeomKind.lineString, [3]) }]
  crs := some ("EPSG:32610")

/-- A trivial instantiation of the external library surface for the
ingestion model. -/
def extTrivial : PyExt where
  toDatetimeFmt _ _ := none
  parseDateFuzzy _ := none
  pyFloat _ := none
  projPt _ _ p := p

/-- A GeoJSON report frame missing the required Date, PSI and Material
columns. -/
def rejectFrame : Frame where
  cols := [("Name")]
  rows := []
  crs := none

/-- An empty gas lines frame. -/
def emptyGasFrame : Frame where
  cols := SCHEMA_FIELDS
  rows := []
  crs := none

/-- An initial ingestion state with nothing processed. -/
def witState : PipeState where
  processed_reports := ∅
  processed_pipelines := ∅
  gas := emptyGasFrame
  features_added := false

/-! ### Theorems -/

theorem rowKind_map_reproject (e : GeomEngine G)
    (hkind : ∀ a b g, e.geomType (e.reproject a b g) = e.geomType g)
    (s t : CRS) (r : GRow α G) :
    e.rowKind { r with geometry := r.geometry.map (e.reproject s t) }
      = e.rowKind r := by
  cases r with
  | mk a og => cases og <;> simp [GeomEngine.rowKind, hkind]

theorem kinds_to_crs (e : GeomEngine G)
    (hkind : ∀ a b g, e.geomType (e.reproject a b g) = e.geomType g)
    (t : CRS) (g : GDF α G) :
    ((g.to_crs e t).rows.map fun r => e.rowKind r)
      = g.rows.map fun r => e.rowKind r := by
  unfold GDF.to_crs
  split
  · rfl
  · split
    · rfl
    · simp only [List.map_map]
      exact List.map_congr_left fun r _ => rowKind_map_reproject e hkind _ _ r

theorem kinds_to_crsO (e : GeomEngine G)
    (hkind : ∀ a b g, e.geomType (e.reproject a b g) = e.geomType g)
    (t : Option CRS) (g : GDF α G) :
    ((g.to_crsO e t).rows.map fun r => e.rowKind r)
      = g.rows.map fun r => e.rowKind r := by
  cases t with
  | none => rfl
  | some c => exact kinds_to_crs e hkind c g

theorem kinds_validate (e : GeomEngine G) (cfg : Config)
    (hkind : ∀ a b g, e.geomType (e.reproject a b g) = e.geomType g)
    (t : Option CRS) (g : GDF α G) :
    ((validate_and_reproject_crs e cfg g t).rows.map fun r => e.rowKind r)
      = g.rows.map fun r => e.rowKind r := by
  unfold validate_and_reproject_crs
  rw [kinds_to_crsO e hkind]
  split <;> rfl

theorem kinds_ensure (e : GeomEngine G) (cfg : Config)
    (hkind : ∀ a b g, e.geomType (e.reproject a b g) = e.geomType g)
    (g : GDF α G) :
    ((ensure_projected_crs e cfg g).rows.map fun r => e.rowKind r)
      = g.rows.map fun r => e.rowKind r := by
  unfold ensure_projected_crs
  split
  · rfl
  · split
    · rw [kinds_to_crs e hkind]
    · rfl

theorem kinds_crs_stage_buffer (e : GeomEngine G) (cfg : Config)
    (hkind : ∀ a b g, e.geomType (e.reproject a b g) = e.geomType g)
    (b f : GDF α G) :
    (((merge_crs_stage e cfg b f).1).rows.map fun r => e.rowKind r)
      = b.rows.map fun r => e.rowKind r := by
  unfold merge_crs_stage
  dsimp only
  rw [show ∀ x : GDF α G, ∀ y : GDF α G,
      ((if x.crs ≠ y.crs then x.to_crsO e y.crs else x).rows.map fun r => e.rowKind r)
        = x.rows.map fun r => e.rowKind r from ?_,
    kinds_ensure e cfg hkind, kinds_validate e cfg hkind]
  · split <;> rfl
  · intro x y
    split
    · exact kinds_to_crsO e hkind _ x
    · rfl

theorem GDF.filterRows_eq_self (g : GDF α G) (p : GRow α G → Bool)
    (h : ∀ r ∈ g.rows, p r = true) : g.filterRows p = g := by
  cases g with
  | mk rows crs => simp [GDF.filterRows, List.filter_eq_self.mpr h]

theorem GDF.mapGeom_eq_self (g : GDF α G) (f : Option G → Option G)
    (h : ∀ r ∈ g.rows, f r.geometry = r.geometry) : g.mapGeom f = g := by
  cases g with
  | mk rows crs =>
      simp only [GDF.mapGeom]
      congr 1
      have h2 : ∀ r ∈ rows, { r with geometry := f r.geometry } = r := by
        intro r hr
        rw [h r hr]
      calc rows.map (fun r => { r with geometry := f r.geometry })
        = rows.map id := List.map_congr_left h2
      _ = rows := List.map_id rows

theorem zipWith_set_geometry (rows : List (GRow α G)) (f : Option G → Option G) :
    List.zipWith (fun r og => { r with geometry := og }) rows (rows.map fun r => f r.geometry)
      = rows.map fun r => { r with geometry := f r.geometry } := by
  induction rows with
  | nil => rfl
  | cons a l ih => simp [ih]

theorem subtractRowsBranch_eq (e : GeomEngine G) (mp : Bool)
    (parks_geoms : List G) (g : GDF α G) :
    subtractRowsBranch e mp parks_geoms g
      = g.mapGeom fun og => og.map fun geo => subtract_park_from_geom e geo parks_geoms := by
  unfold subtractRowsBranch parallel_process
  cases mp with
  | false => simp
  | true =>
      simp only [List.map_map, if_true]
      rw [show ((fun p : Option G × List G =>
          p.1.map fun geo => subtract_park_from_geom e geo p.2)
            ∘ fun r : GRow α G => (r.geometry, parks_geoms))
          = fun r : GRow α G =>
              (fun og : Option G => og.map fun geo => subtract_park_from_geom e geo parks_geoms)
                r.geometry from rfl]
      rw [zipWith_set_geometry]
      rfl

theorem bufferRowsBranch_eq (e : GeomEngine G) (mp : Bool)
    (d : ℚ) (g : GDF α G) :
    bufferRowsBranch e mp d g
      = g.mapGeom fun og => og.map fun geo => e.buffer geo d := by
  unfold bufferRowsBranch parallel_process
  cases mp with
  | false => simp
  | true =>
      simp only [List.map_map, if_true]
      rw [show ((fun p : Option G × ℚ => p.1.map fun geo => e.buffer geo p.2)
            ∘ fun r : GRow α G => (r.geometry, d))
          = fun r : GRow α G =>
              (fun og : Option G => og.map fun geo => e.buffer geo d) r.geometry from rfl]
      rw [zipWith_set_geometry]
      rfl

theorem to_crs_normal (e : GeomEngine G)
    (hself : ∀ a g, e.reproject a a g = g)
    (g : GDF α G) (s t : CRS) (hcrs : g.crs = some s) :
    g.to_crs e t
      = { rows := g.rows.map fun r => { r with geometry := r.geometry.map (e.reproject s t) },
          crs := some t } := by
  unfold GDF.to_crs
  split
  · rename_i h
    rw [hcrs] at h
    injection h with hst
    subst hst
    cases g with
    | mk rows crs =>
        simp only at hcrs
        subst hcrs
        have h3 : e.reproject s s = id := funext fun g0 => hself s g0
        simp [h3]
  · rw [hcrs]

theorem harmonize_empty (e : GeomEngine G) (pbd : ℚ) (f : GDF α G)
    (h : f.rows = []) : merge_harmonize_future e pbd f = .ok f := by
  unfold merge_harmonize_future
  rw [h]
  rfl

theorem merge_crs_stage_planning (e : GeomEngine G) (cfg : Config)
    (hself : ∀ a g, e.reproject a a g = g)
    (b f : GDF α G) (cb cp : CRS)
    (hcb : b.crs = some cb) (hcp : f.crs = some cp)
    (hgp : cfg.isGeographic cp = false) :
    merge_crs_stage e cfg b f
      = ({ rows := b.rows.map fun r => { r with geometry := r.geometry.map (e.reproject cb cp) },
           crs := some cp }, f) := by
  obtain ⟨brows, bcrs⟩ := b
  obtain ⟨frows, fcrs⟩ := f
  dsimp only at hcb hcp
  subst hcb
  subst hcp
  unfold merge_crs_stage validate_and_reproject_crs GDF.to_crsO ensure_projected_crs
  dsimp only
  simp only [if_neg (Option.some_ne_none cp), if_neg (Option.some_ne_none cb)]
  rw [to_crs_normal e hself (GDF.mk brows (some cb)) cb cp rfl]
  dsimp only
  simp only [hgp, Bool.false_eq_true, if_false]
  simp

theorem harmonize_errors (e : GeomEngine G) (pbd : ℚ) (future : GDF α G)
    (hne : future.rows ≠ [])
    (hcond : (¬ ∃ k, ∀ r ∈ future.rows, e.rowKind r = k)
      ∨ (∃ k, (∀ r ∈ future.rows, e.rowKind r = k) ∧ polyKindOk k = false
          ∧ k ≠ some GeomKind.point ∧ k ≠ some GeomKind.lineString)) :
    ∃ msg, merge_harmonize_future e pbd future = .error (.valueError msg) := by
  have hbe : future.rows.isEmpty = false := by
    cases h : future.rows with
    | nil => exact absurd h hne
    | cons a l => rfl
  unfold merge_harmonize_future
  simp only [hbe, Bool.false_eq_true, if_false]
  cases hd : (future.rows.map fun r => e.rowKind r).dedup with
  | nil => exact ⟨_, rfl⟩
  | cons k rest =>
      cases rest with
      | cons k2 r2 => exact ⟨_, rfl⟩
      | nil =>
          have huni : ∀ r ∈ future.rows, e.rowKind r = k := by
            intro r hr
            have hx : e.rowKind r ∈ ((future.rows.map fun r => e.rowKind r).dedup) :=
              List.mem_dedup.mpr (List.mem_map_of_mem _ hr)
            rw [hd] at hx
            simpa using hx
          rcases hcond with h2 | ⟨k0, hk0, hnp, hpt, hls⟩
          · exact absurd ⟨k, huni⟩ h2
          · obtain ⟨r, hr⟩ := List.exists_mem_of_ne_nil future.rows hne
            have hkk : k = k0 := by rw [← huni r hr, hk0 r hr]
            subst hkk
            rcases k with _ | kk
            · exact ⟨_, rfl⟩
            · cases kk with
              | point => exact absurd rfl hpt
              | lineString => exact absurd rfl hls
              | polygon => simp [polyKindOk] at hnp
              | multiPolygon => simp [polyKindOk] at hnp
              | multiLineString => exact ⟨_, rfl⟩
              | multiPoint => exact ⟨_, rfl⟩

theorem kinds_crs_stage_future (e : GeomEngine G) (cfg : Config)
    (hkind : ∀ a b g, e.geomType (e.reproject a b g) = e.geomType g)
    (b f : GDF α G) :
    (((merge_crs_stage e cfg b f).2).rows.map fun r => e.rowKind r)
      = f.rows.map fun r => e.rowKind r := by
  unfold merge_crs_stage
  dsimp only
  rw [kinds_ensure e cfg hkind]
  split <;> rfl

/-- C1.  The spec requires every returned buffer row to intersect at least
one geometry of the original (pre-buffer) source dataset
(Source-Intersection Filter, §4.5; buffer_processor.py lines 113-116).  The
code overwrites the `gas_lines_gdf` geometry column with the buffered (and
park-subtracted) polygons before applying the filter, so the filter tests
each surviving polygon against the buffered layer itself — a self-test that
every non-empty geometry passes.  On this input the park subtraction leaves
a sliver (cell 1) disjoint from the source line (cell 0); the code still
returns it, and the returned geometry intersects no geometry of the original
source dataset. -/
theorem create_buffer_intersection_filter_misses_source :
    (create_buffer_with_geopandas intEngine testConfig gasLineLayer (some 10)
        (some parksLayer) false).rows
      = [{ attrs := (), geometry := some (GeomKind.polygon, [1]) }]
    ∧ gasLineLayer.rows
      = [{ attrs := (), geometry := some (GeomKind.lineString, [0]) }]
    ∧ intEngine.intersects (GeomKind.polygon, [1]) (GeomKind.lineString, [0]) = false := by
  refine ⟨by decide, by decide, by decide⟩

/-- C2.  With an empty buffer layer, `merge_buffers_into_planning_file`
returns the planning layer exactly as loaded and performs no file write
(buffer_processor.py lines 243-253). -/
theorem merge_empty_buffer_returns_planning_unchanged
    (e : GeomEngine G) (cfg : Config) (buffer_gdf future_dev_gdf : GDF α G)
    (point_buffer_distance : ℚ) (output_crs : Option CRS)
    (h : buffer_gdf.rows = []) :
    merge_buffers_into_planning_file e cfg buffer_gdf future_dev_gdf
        point_buffer_distance output_crs
      = .ok (future_dev_gdf, none) := by
  unfold merge_buffers_into_planning_file
  simp [h]

/-- Witness for C2: the empty buffer layer together with a one-row planning
layer. -/
theorem merge_empty_buffer_returns_planning_unchanged_witness :
    merge_buffers_into_planning_file intEngine testConfig emptyBufferLayer
        simplePlanningLayer 10 none
      = .ok (simplePlanningLayer, none) :=
  merge_empty_buffer_returns_planning_unchanged intEngine testConfig
    emptyBufferLayer simplePlanningLayer 10 none rfl

/-- Counterexample to C3 as stated: when the buffer layer is empty the merge
returns the planning layer unchanged (buffer_processor.py lines 243-253)
even though the planning layer mixes a Polygon row and a LineString row, so
no validation error is raised in that case. -/
theorem merge_mixed_planning_empty_buffer_no_error :
    merge_buffers_into_planning_file intEngine testConfig emptyBufferLayer
        mixedPlanningLayer 10 none
      = .ok (mixedPlanningLayer, none)
    ∧ (mixedPlanningLayer.rows.map fun r => intEngine.rowKind r)
      = [some GeomKind.polygon, some GeomKind.lineString] := by
  refine ⟨by decide, by decide⟩

/-- C4.  The spec requires an empty merged dataset to skip the write and
return an empty typed GeoDataFrame with the planning layer's CRS
(buffer_processor.py lines 356-361).  That branch is unreachable: the merged
dataset can only be empty when both cleaned layers are empty, and then the
frame list passed to `pd.concat` at line 345-346 is empty, which raises
`ValueError` before the empty-result branch is reached.  Here the buffer
layer holds a single Polygon row whose geometry is empty (it passes the
polygon-kind gate and is dropped by cleaning) and the planning layer has no
rows: the call raises instead of returning the empty typed result. -/
theorem merge_empty_result_raises_concat_error :
    merge_buffers_into_planning_file intEngine testConfig emptyGeomBufferLayer
        emptyPlanningLayer 10 none
      = .error (.valueError ("No objects to concatenate")) := by
  decide

/-- C6.  For every positive buffer distance in feet — the caller's value, or
the configured default when the caller passes none — the buffer distance in
meters used by `create_buffer_with_geopandas` is the distance in feet
multiplied by exactly 0.3048 (buffer_processor.py lines 52-54). -/
theorem buffer_distance_exact_feet_to_meters (cfg : Config)
    (buffer_distance_ft : Option ℚ)
    (h : 0 < (match buffer_distance_ft with
      | none => cfg.defaultBufferDistanceFt
      | some ft => ft)) :
    buffer_distance_m_of cfg buffer_distance_ft
      = (match buffer_distance_ft with
          | none => cfg.defaultBufferDistanceFt
          | some ft => ft) * 0.3048 := by
  cases buffer_distance_ft <;>
    simp [buffer_distance_m_of, convert_ft_to_m]

/-- Witness for C6: the configured default of `testConfig` is positive and
converts to meters by the exact factor. -/
theorem buffer_distance_exact_feet_to_meters_witness :
    (0 : ℚ) < 25 ∧ buffer_distance_m_of testConfig none = 25 * 0.3048 :=
  ⟨by norm_num,
   buffer_distance_exact_feet_to_meters testConfig none (by norm_num [testConfig])⟩

/-- Counterexample to C8 as stated: `subtract_parks_from_buffer` with no
exclusion path returns the input buffer layer as-is
(buffer_processor.py lines 151-153), so a row with an empty geometry in the
input reappears in the returned GeoDataFrame, violating the claimed
non-empty-geometry guarantee on every returned row. -/
theorem subtract_parks_no_path_passes_invalid_rows :
    subtract_parks_from_buffer intEngine testConfig emptyGeomBufferLayer
        (none : Option (GDF Unit IGeom)) false
      = emptyGeomBufferLayer
    ∧ intEngine.cellEmpty (some ((GeomKind.polygon, []) : IGeom)) = true := by
  refine ⟨by decide, by decide⟩

/-- C3 (amended).  Provided the buffer layer is non-empty — with an empty
buffer layer the merge returns early without validating — the merge raises a
hard `ValueError` and performs no file write whenever the buffer layer
contains a geometry that is not Polygon or MultiPolygon, or the non-empty
planning layer has more than one distinct geometry kind, or its uniform kind
is neither Polygon, MultiPolygon, Point nor LineString
(buffer_processor.py lines 298-327; the only write, line 364, is after every
raise site, and an `.error` result carries no written layer).  Reprojection
is assumed to preserve geometry kind, as the projection collaborator does. -/
theorem merge_hard_schema_errors_abort_before_write
    (e : GeomEngine G) (cfg : Config)
    (buffer_gdf future_dev_gdf : GDF α G)
    (point_buffer_distance : ℚ) (output_crs : Option CRS)
    (hkind : ∀ a b g, e.geomType (e.reproject a b g) = e.geomType g)
    (hne : buffer_gdf.rows ≠ [])
    (hcond :
      (∃ r ∈ buffer_gdf.rows, polygonKind e r = false)
      ∨ (future_dev_gdf.rows ≠ []
          ∧ ¬ ∃ k, ∀ r ∈ future_dev_gdf.rows, e.rowKind r = k)
      ∨ (future_dev_gdf.rows ≠ []
          ∧ ∃ k, (∀ r ∈ future_dev_gdf.rows, e.rowKind r = k)
              ∧ polyKindOk k = false
              ∧ k ≠ some GeomKind.point ∧ k ≠ some GeomKind.lineString)) :
    ∃ msg, merge_buffers_into_planning_file e cfg buffer_gdf future_dev_gdf
        point_buffer_distance output_crs
      = .error (.valueError msg) := by
  have hbe : buffer_gdf.rows.isEmpty = false := by
    cases h : buffer_gdf.rows with
    | nil => exact absurd h hne
    | cons a l => rfl
  unfold merge_buffers_into_planning_file
  simp only [hbe, Bool.false_eq_true, if_false]
  have hkindsB := kinds_crs_stage_buffer e cfg hkind buffer_gdf future_dev_gdf
  have hkindsF := kinds_crs_stage_future e cfg hkind buffer_gdf future_dev_gdf
  cases hall : ((merge_crs_stage e cfg buffer_gdf future_dev_gdf).1.rows.all (polygonKind e)) with
  | false => exact ⟨_, rfl⟩
  | true =>
      have hc1 : ¬ ∃ r ∈ buffer_gdf.rows, polygonKind e r = false := by
        rintro ⟨r, hr, hpk⟩
        have hmem : e.rowKind r ∈ buffer_gdf.rows.map fun r => e.rowKind r :=
          List.mem_map_of_mem _ hr
        rw [← hkindsB] at hmem
        obtain ⟨r2, hr2, hkeq⟩ := List.mem_map.mp hmem
        have hall2 := List.all_eq_true.mp hall r2 hr2
        unfold polygonKind at hall2 hpk
        rw [hkeq, hpk] at hall2
        exact Bool.false_ne_true hall2
      rcases hcond with h1 | h23
      · exact absurd h1 hc1
      · have htransfer : ∀ k : Option GeomKind,
            (∀ r ∈ future_dev_gdf.rows, e.rowKind r = k) →
            ∀ r ∈ (merge_crs_stage e cfg buffer_gdf future_dev_gdf).2.rows, e.rowKind r = k := by
          intro k hk r hr
          have hmem : e.rowKind r
              ∈ (merge_crs_stage e cfg buffer_gdf future_dev_gdf).2.rows.map
                  fun r => e.rowKind r := List.mem_map_of_mem _ hr
          rw [hkindsF] at hmem
          obtain ⟨r0, hr0, heq⟩ := List.mem_map.mp hmem
          rw [← heq]
          exact hk r0 hr0
        have htransfer2 : ∀ k : Option GeomKind,
            (∀ r ∈ (merge_crs_stage e cfg buffer_gdf future_dev_gdf).2.rows, e.rowKind r = k) →
            ∀ r ∈ future_dev_gdf.rows, e.rowKind r = k := by
          intro k hk r hr
          have hmem : e.rowKind r ∈ future_dev_gdf.rows.map fun r => e.rowKind r :=
            List.mem_map_of_mem _ hr
          rw [← hkindsF] at hmem
          obtain ⟨r0, hr0, heq⟩ := List.mem_map.mp hmem
          rw [← heq]
          exact hk r0 hr0
        have hFne : (merge_crs_stage e cfg buffer_gdf future_dev_gdf).2.rows ≠ [] := by
          intro hFnil
          have hfne : future_dev_gdf.rows ≠ [] := by
            rcases h23 with ⟨hf, _⟩ | ⟨hf, _⟩ <;> exact hf
          have : (future_dev_gdf.rows.map fun r => e.rowKind r) = [] := by
            rw [← hkindsF, hFnil, List.map_nil]
          exact hfne (List.map_eq_nil_iff.mp this)
        have herr : ∃ msg,
            merge_harmonize_future e point_buffer_distance
                (merge_crs_stage e cfg buffer_gdf future_dev_gdf).2
              = .error (.valueError msg) := by
          apply harmonize_errors e point_buffer_distance _ hFne
          rcases h23 with ⟨_, h2⟩ | ⟨_, k, hk, hrest⟩
          · left
            rintro ⟨k, hkF⟩
            exact h2 ⟨k, htransfer2 k hkF⟩
          · exact Or.inr ⟨k, htransfer k hk, hrest⟩
        obtain ⟨msg, hmsg⟩ := herr
        exact ⟨msg, by simp only [Bool.not_true, Bool.false_eq_true, if_false, hmsg]⟩

/-- Witness for C3 (amended): a non-empty polygonal buffer layer together
with the mixed-kind planning layer produces a hard error. -/
theorem merge_hard_schema_errors_abort_before_write_witness :
    ∃ msg, merge_buffers_into_planning_file intEngine testConfig polyBufferLayer
        mixedPlanningLayer 10 none = .error (.valueError msg) :=
  merge_hard_schema_errors_abort_before_write intEngine testConfig
    polyBufferLayer mixedPlanningLayer 10 none
    (fun _ _ _ => rfl) (by decide)
    (Or.inr (Or.inl ⟨by decide, by decide⟩))

/-- C5.  `subtract_parks_from_buffer` with no exclusion path returns a copy
of the input buffer layer unchanged (buffer_processor.py lines 151-153); and
with an exclusion dataset that has no Polygon/MultiPolygon geometries, the
whole layer is ruled out by the kind filter, the subtraction folds over an
empty exclusion list, and the buffer rows come back identical
(lines 162-203).  The buffer rows are assumed non-null, valid and non-empty
(the `BufferResult` invariant), repair is assumed to be the identity on
valid non-empty geometries, and reprojection to preserve geometry kind. -/
theorem subtract_parks_no_or_empty_exclusions_identity
    (e : GeomEngine G) (cfg : Config)
    (buffer_gdf : GDF α G) (parks : GDF β G) (use_multiprocessing : Bool)
    (hkind : ∀ a b g, e.geomType (e.reproject a b g) = e.geomType g)
    (hfix : ∀ g, e.isValid g = true → e.isEmpty g = false → e.fix g = some g)
    (hrows : ∀ r ∈ buffer_gdf.rows, notnull_valid_nonempty e r = true)
    (hparks : ∀ r ∈ parks.rows, polygonKind e r = false) :
    subtract_parks_from_buffer e cfg buffer_gdf (none : Option (GDF β G))
        use_multiprocessing = buffer_gdf
    ∧ subtract_parks_from_buffer e cfg buffer_gdf (some parks)
        use_multiprocessing = buffer_gdf := by
  have hsplit : ∀ r ∈ buffer_gdf.rows, r.geometry.isSome = true
      ∧ e.cellValid r.geometry = true ∧ e.cellEmpty r.geometry = false := by
    intro r hr
    have h := hrows r hr
    unfold notnull_valid_nonempty at h
    simp only [Bool.and_eq_true, Bool.not_eq_true'] at h
    exact ⟨h.1.1, h.1.2, h.2⟩
  have hSome : ∀ r ∈ buffer_gdf.rows, r.geometry.isSome = true :=
    fun r hr => (hsplit r hr).1
  have hCV : ∀ r ∈ buffer_gdf.rows, e.cellValid r.geometry = true :=
    fun r hr => (hsplit r hr).2.1
  have hCE : ∀ r ∈ buffer_gdf.rows, e.cellEmpty r.geometry = false :=
    fun r hr => (hsplit r hr).2.2
  have hfixcell : ∀ r ∈ buffer_gdf.rows, fixCell e r.geometry = r.geometry := by
    intro r hr
    obtain ⟨g, hg⟩ := Option.isSome_iff_exists.mp (hSome r hr)
    have hv : e.isValid g = true := by
      have := hCV r hr
      rw [hg] at this
      simpa [GeomEngine.cellValid] using this
    have hee : e.isEmpty g = false := by
      have := hCE r hr
      rw [hg] at this
      simpa [GeomEngine.cellEmpty] using this
    rw [hg]
    simp [fixCell, hfix g hv hee]
  have hb1 : buffer_gdf.filterRows (fun r => r.geometry.isSome) = buffer_gdf :=
    GDF.filterRows_eq_self buffer_gdf _ hSome
  have hb2 : buffer_gdf.mapGeom (fixCell e) = buffer_gdf :=
    GDF.mapGeom_eq_self buffer_gdf _ hfixcell
  have hb3 : log_and_filter_invalid_geometries e buffer_gdf ("Buffers") = buffer_gdf := by
    apply GDF.filterRows_eq_self
    intro r hr
    obtain ⟨g, hg⟩ := Option.isSome_iff_exists.mp (hSome r hr)
    have hv : e.isValid g = true := by
      have := hCV r hr
      rw [hg] at this
      simpa [GeomEngine.cellValid] using this
    have hee : e.isEmpty g = false := by
      have := hCE r hr
      rw [hg] at this
      simpa [GeomEngine.cellEmpty] using this
    rw [hg]
    simp [hv, hee]
  have hb6 : buffer_gdf.filterRows (valid_nonempty e) = buffer_gdf := by
    apply GDF.filterRows_eq_self
    intro r hr
    unfold valid_nonempty
    rw [hCV r hr, hCE r hr]
    rfl
  refine ⟨rfl, ?_⟩
  show (match (some parks : Option (GDF β G)) with
    | none => buffer_gdf
    | some parks0 =>
      let parks_gdf := validate_and_reproject_crs e cfg parks0 buffer_gdf.crs
      let parks_gdf := parks_gdf.filterRows (polygonKind e)
      let parks_gdf := parks_gdf.filterRows fun r => r.geometry.isSome
      let parks_gdf := parks_gdf.mapGeom (fixCell e)
      let parks_gdf := log_and_filter_invalid_geometries e parks_gdf ("Parks")
      let buffer1 := buffer_gdf.filterRows fun r => r.geometry.isSome
      let buffer1 := buffer1.mapGeom (fixCell e)
      let buffer1 := log_and_filter_invalid_geometries e buffer1 ("Buffers")
      let parks_geoms := parks_gdf.rows.filterMap fun r => r.geometry
      let buffer1 := subtractRowsBranch e use_multiprocessing parks_geoms buffer1
      let buffer1 := buffer1.mapGeom (fixCell e)
      buffer1.filterRows (valid_nonempty e)) = buffer_gdf
  dsimp only
  have hP1 : ∀ r ∈ (validate_and_reproject_crs e cfg parks buffer_gdf.crs).rows,
      polygonKind e r = false := by
    intro r hr
    have hmem : e.rowKind r
        ∈ (validate_and_reproject_crs e cfg parks buffer_gdf.crs).rows.map
            fun r => e.rowKind r := List.mem_map_of_mem _ hr
    rw [kinds_validate e cfg hkind _ parks] at hmem
    obtain ⟨r0, hr0, heq⟩ := List.mem_map.mp hmem
    have := hparks r0 hr0
    unfold polygonKind at this ⊢
    rw [← heq]
    exact this
  have hA : (validate_and_reproject_crs e cfg parks buffer_gdf.crs).filterRows
        (polygonKind e)
      = { rows := [],
          crs := (validate_and_reproject_crs e cfg parks buffer_gdf.crs).crs } := by
    unfold GDF.filterRows
    congr 1
    apply List.filter_eq_nil_iff.mpr
    intro r hr
    rw [hP1 r hr]
    simp
  rw [hA]
  simp only [GDF.filterRows, GDF.mapGeom, log_and_filter_invalid_geometries,
    List.filter_nil, List.map_nil, List.filterMap_nil]
  rw [subtractRowsBranch_eq]
  simp only [GDF.mapGeom]
  have hl1 : List.filter (fun r => r.geometry.isSome) buffer_gdf.rows
      = buffer_gdf.rows := List.filter_eq_self.mpr hSome
  have hl2 : List.map
      (fun r : GRow α G => { r with geometry := fixCell e r.geometry })
      buffer_gdf.rows = buffer_gdf.rows := by
    have h2 : ∀ r ∈ buffer_gdf.rows,
        ({ r with geometry := fixCell e r.geometry } : GRow α G) = r := by
      intro r hr
      rw [hfixcell r hr]
    calc List.map (fun r : GRow α G => { r with geometry := fixCell e r.geometry }) buffer_gdf.rows
        = List.map id buffer_gdf.rows := List.map_congr_left h2
      _ = buffer_gdf.rows := List.map_id buffer_gdf.rows
  have hl3 : List.filter
      (fun r : GRow α G => match r.geometry with
        | none => false
        | some geo => e.isValid geo && !(e.isEmpty geo)) buffer_gdf.rows
      = buffer_gdf.rows := by
    apply List.filter_eq_self.mpr
    intro r hr
    obtain ⟨g, hg⟩ := Option.isSome_iff_exists.mp (hSome r hr)
    have hv : e.isValid g = true := by
      have := hCV r hr
      rw [hg] at this
      simpa [GeomEngine.cellValid] using this
    have hee : e.isEmpty g = false := by
      have := hCE r hr
      rw [hg] at this
      simpa [GeomEngine.cellEmpty] using this
    rw [hg]
    simp [hv, hee]
  have hl4 : List.map
      (fun r : GRow α G =>
        { r with geometry := r.geometry.map fun geo => subtract_park_from_geom e geo ([] : List G) })
      buffer_gdf.rows = buffer_gdf.rows := by
    have h2 : ∀ r ∈ buffer_gdf.rows,
        ({ r with geometry := r.geometry.map fun geo => subtract_park_from_geom e geo ([] : List G) } : GRow α G) = r := by
      intro r hr
      have h3 : (fun geo => subtract_park_from_geom e geo ([] : List G)) = fun geo => geo := by
        funext geo
        rfl
      rw [h3, Option.map_id']
    calc List.map (fun r : GRow α G =>
          { r with geometry := r.geometry.map fun geo => subtract_park_from_geom e geo ([] : List G) }) buffer_gdf.rows
        = List.map id buffer_gdf.rows := List.map_congr_left h2
      _ = buffer_gdf.rows := List.map_id buffer_gdf.rows
  have hl6 : List.filter (valid_nonempty e) buffer_gdf.rows = buffer_gdf.rows := by
    apply List.filter_eq_self.mpr
    intro r hr
    unfold valid_nonempty
    rw [hCV r hr, hCE r hr]
    rfl
  rw [hl1, hl2, hl3, hl4, hl2, hl6]

/-- Witness for C5: a valid polygonal buffer layer with no exclusion path,
and with an exclusion layer containing only a LineString row. -/
theorem subtract_parks_no_or_empty_exclusions_identity_witness :
    subtract_parks_from_buffer intEngine testConfig polyBufferLayer
        (none : Option (GDF Unit IGeom)) false = polyBufferLayer
    ∧ subtract_parks_from_buffer intEngine testConfig polyBufferLayer
        (some nonPolyParksLayer) false = polyBufferLayer :=
  subtract_parks_no_or_empty_exclusions_identity intEngine testConfig
    polyBufferLayer nonPolyParksLayer false
    (fun _ _ _ => rfl) (fun _ _ _ => rfl) (by decide) (by decide)

theorem mem_log_and_filter (e : GeomEngine G) (g : GDF α G) (label : String)
    (r : GRow α G) (hr : r ∈ (log_and_filter_invalid_geometries e g label).rows) :
    notnull_valid_nonempty e r = true := by
  have hp := List.of_mem_filter hr
  cases hg : r.geometry with
  | none => rw [hg] at hp; exact absurd hp (by simp)
  | some geo =>
      rw [hg] at hp
      simp only [Bool.and_eq_true, Bool.not_eq_true'] at hp
      unfold notnull_valid_nonempty GeomEngine.cellValid GeomEngine.cellEmpty
      rw [hg]
      simp [hp.1, hp.2]

theorem mem_filter_valid_nonempty (e : GeomEngine G) (g : GDF α G)
    (r : GRow α G) (hr : r ∈ (g.filterRows (valid_nonempty e)).rows) :
    notnull_valid_nonempty e r = true := by
  have hp := List.of_mem_filter hr
  unfold valid_nonempty at hp
  simp only [Bool.and_eq_true, Bool.not_eq_true'] at hp
  cases hg : r.geometry with
  | none =>
      have := hp.1
      rw [hg] at this
      exact absurd this (by simp [GeomEngine.cellValid])
  | some geo =>
      unfold notnull_valid_nonempty
      rw [hg]
      have h1 := hp.1
      have h2 := hp.2
      rw [hg] at h1 h2
      simp [h1, h2]

/-- C8 (amended).  Every row returned by `create_buffer_with_geopandas` has a
non-null, valid, non-empty geometry (every return path of
buffer_processor.py lines 80-125 passes through a validity filter), and so
does every row returned by `subtract_parks_from_buffer` when an exclusion
path is supplied (line 200).  With no exclusion path,
`subtract_parks_from_buffer` returns its input unfiltered (line 153), so row
validity is only inherited from the input there. -/
theorem create_and_subtract_rows_valid_nonempty
    (e : GeomEngine G) (cfg : Config)
    (gas_lines_gdf buffer_gdf : GDF α G) (parks0 : GDF β G)
    (buffer_distance_ft : Option ℚ) (parks : Option (GDF β G)) (mp mp2 : Bool) :
    (∀ r ∈ (create_buffer_with_geopandas e cfg gas_lines_gdf buffer_distance_ft
        parks mp).rows, notnull_valid_nonempty e r = true)
    ∧ (∀ r ∈ (subtract_parks_from_buffer e cfg buffer_gdf (some parks0)
        mp2).rows, notnull_valid_nonempty e r = true) := by
  constructor
  · intro r hr
    unfold create_buffer_with_geopandas at hr
    dsimp only at hr
    split at hr
    all_goals split at hr
    any_goals exact mem_log_and_filter e _ _ r hr
    all_goals split at hr
    any_goals exact mem_log_and_filter e _ _ r hr
    all_goals exact mem_filter_valid_nonempty e _ r hr
  · intro r hr
    unfold subtract_parks_from_buffer at hr
    dsimp only at hr
    exact mem_filter_valid_nonempty e _ r hr

/-- Witness for C8 (amended): the buffered row returned for the concrete gas
line, and the polygon row surviving the concrete park subtraction. -/
theorem create_and_subtract_rows_valid_nonempty_witness :
    notnull_valid_nonempty intEngine
      ({ attrs := (), geometry := some (GeomKind.polygon, [-1, 0, 1]) } : GRow Unit IGeom) = true
    ∧ notnull_valid_nonempty intEngine
      ({ attrs := (), geometry := some (GeomKind.polygon, [5, 6]) } : GRow Unit IGeom) = true :=
  ⟨(create_and_subtract_rows_valid_nonempty intEngine testConfig gasLineLayer
      polyBufferLayer parksLayer none none false false).1
      { attrs := (), geometry := some (GeomKind.polygon, [-1, 0, 1]) } (by decide),
   (create_and_subtract_rows_valid_nonempty intEngine testConfig gasLineLayer
      polyBufferLayer parksLayer none none false false).2
      { attrs := (), geometry := some (GeomKind.polygon, [5, 6]) } (by decide)⟩

/-- C9.  `make_feature` returns a single-row frame whose columns are exactly
`Name`, `Date`, `PSI`, `Material`, `geometry` in that order, carrying the
supplied CRS, with the material lowered and every other attribute stored
unchanged (data_loader.py lines 89-126 and the schema at line 50). -/
theorem make_feature_schema_and_lowercase
    (name date psi : PyVal) (s : String) (geometry : PyVal) (crs : CRS) :
    (make_feature name date psi (.str s) geometry crs).cols = SCHEMA_FIELDS
    ∧ (make_feature name date psi (.str s) geometry crs).rows
      = [[(("Name"), name), (("Date"), date), (("PSI"), psi),
          (("Material"), PyVal.str s.toLower), (("geometry"), geometry)]]
    ∧ (make_feature name date psi (.str s) geometry crs).crs = some crs := by
  refine ⟨rfl, ?_, rfl⟩
  simp [make_feature, SCHEMA_FIELDS, pyLower]

/-- C7.  In `merge_buffers_into_planning_file` the merged dataset is
reprojected to the caller-specified `output_crs` when given, else to the
buffer layer's CRS at the resolution point when the buffer layer is
non-empty, else to the planning layer's CRS (buffer_processor.py lines
350-354; after the CRS harmonization of lines 281-296 the buffer layer's
CRS equals the planning layer's CRS).  In particular, for an empty planning
layer and a non-empty, valid, polygonal buffer layer, the returned result
equals the buffer layer reprojected to that resolved output CRS, and it is
also the layer written.  Reprojection is assumed to preserve kind, validity
and emptiness, to compose, and to be the identity onto the same CRS; repair
is assumed to be the identity on valid non-empty geometries. -/
theorem merge_output_crs_resolution_planning_empty
    (e : GeomEngine G) (cfg : Config) (buffer_gdf future_dev_gdf : GDF α G)
    (point_buffer_distance : ℚ) (output_crs : Option CRS) (cb cp : CRS)
    (hkind : ∀ a b g, e.geomType (e.reproject a b g) = e.geomType g)
    (hvalid : ∀ a b g, e.isValid (e.reproject a b g) = e.isValid g)
    (hempty : ∀ a b g, e.isEmpty (e.reproject a b g) = e.isEmpty g)
    (hfix : ∀ g, e.isValid g = true → e.isEmpty g = false → e.fix g = some g)
    (hcomp : ∀ a b c g, e.reproject b c (e.reproject a b g) = e.reproject a c g)
    (hself : ∀ a g, e.reproject a a g = g)
    (hplan : future_dev_gdf.rows = []) (hbne : buffer_gdf.rows ≠ [])
    (hcb : buffer_gdf.crs = some cb) (hcp : future_dev_gdf.crs = some cp)
    (hgp : cfg.isGeographic cp = false)
    (hrows : ∀ r ∈ buffer_gdf.rows,
      polygonKind e r = true ∧ notnull_valid_nonempty e r = true) :
    merge_buffers_into_planning_file e cfg buffer_gdf future_dev_gdf
        point_buffer_distance output_crs
      = .ok (buffer_gdf.to_crs e (output_crs.getD cp),
             some (buffer_gdf.to_crs e (output_crs.getD cp))) := by
  have hbe : buffer_gdf.rows.isEmpty = false := by
    cases h : buffer_gdf.rows with
    | nil => exact absurd h hbne
    | cons a l => rfl
  have hsplit : ∀ r ∈ buffer_gdf.rows, ∃ g0, r.geometry = some g0
      ∧ e.isValid g0 = true ∧ e.isEmpty g0 = false := by
    intro r hr
    have h := (hrows r hr).2
    unfold notnull_valid_nonempty at h
    simp only [Bool.and_eq_true, Bool.not_eq_true'] at h
    obtain ⟨g0, hg0⟩ := Option.isSome_iff_exists.mp h.1.1
    refine ⟨g0, hg0, ?_, ?_⟩
    · have := h.1.2
      rw [hg0] at this
      simpa [GeomEngine.cellValid] using this
    · have := h.2
      rw [hg0] at this
      simpa [GeomEngine.cellEmpty] using this
  unfold merge_buffers_into_planning_file
  simp only [hbe, Bool.false_eq_true, if_false]
  rw [merge_crs_stage_planning e cfg hself buffer_gdf future_dev_gdf cb cp hcb hcp hgp]
  dsimp only
  have hall : (buffer_gdf.rows.map fun r =>
      ({ r with geometry := r.geometry.map (e.reproject cb cp) } : GRow α G)).all
        (polygonKind e) = true := by
    apply List.all_eq_true.mpr
    intro r2 hr2
    obtain ⟨r, hr, hFr⟩ := List.mem_map.mp hr2
    subst hFr
    have h1 := (hrows r hr).1
    unfold polygonKind GeomEngine.rowKind at h1 ⊢
    obtain ⟨g0, hg0, _, _⟩ := hsplit r hr
    rw [hg0] at h1 ⊢
    simpa [hkind] using h1
  rw [hall]
  simp only [Bool.not_true, Bool.false_eq_true, if_false]
  rw [harmonize_empty e point_buffer_distance future_dev_gdf hplan]
  dsimp only
  unfold merge_tail
  dsimp only [GDF.mapGeom, GDF.filterRows]
  simp only [hplan, List.map_nil, List.filter_nil, List.map_map]
  have hfixN : List.map
      ((fun r : GRow α G => { r with geometry := fixCell e r.geometry })
        ∘ fun r : GRow α G => { r with geometry := r.geometry.map (e.reproject cb cp) })
      buffer_gdf.rows
      = List.map (fun r : GRow α G =>
          { r with geometry := r.geometry.map (e.reproject cb cp) }) buffer_gdf.rows := by
    apply List.map_congr_left
    intro r hr
    obtain ⟨g0, hg0, hv, he2⟩ := hsplit r hr
    have hgeom : fixCell e (Option.map (e.reproject cb cp) r.geometry)
        = Option.map (e.reproject cb cp) r.geometry := by
      rw [hg0]
      show e.fix (e.reproject cb cp g0) = some (e.reproject cb cp g0)
      exact hfix _ (by rw [hvalid, hv]) (by rw [hempty, he2])
    show ({ attrs := r.attrs, geometry := fixCell e (Option.map (e.reproject cb cp) r.geometry) } : GRow α G) = { attrs := r.attrs, geometry := Option.map (e.reproject cb cp) r.geometry }
    rw [hgeom]
  rw [hfixN]
  have hfiltN : List.filter (notnull_valid_nonempty e)
      (List.map (fun r : GRow α G => { r with geometry := r.geometry.map (e.reproject cb cp) }) buffer_gdf.rows)
      = List.map (fun r : GRow α G => { r with geometry := r.geometry.map (e.reproject cb cp) }) buffer_gdf.rows := by
    apply List.filter_eq_self.mpr
    intro r2 hr2
    obtain ⟨r, hr, hFr⟩ := List.mem_map.mp hr2
    subst hFr
    obtain ⟨g0, hg0, hv, he2⟩ := hsplit r hr
    unfold notnull_valid_nonempty GeomEngine.cellValid GeomEngine.cellEmpty
    rw [show ({ r with geometry := r.geometry.map (e.reproject cb cp) } : GRow α G).geometry = r.geometry.map (e.reproject cb cp) from rfl, hg0]
    show (((some (e.reproject cb cp g0)).isSome && e.isValid (e.reproject cb cp g0)) && !e.isEmpty (e.reproject cb cp g0)) = true
    rw [hvalid, hempty, hv, he2]
    rfl
  rw [hfiltN]
  have hmne : (List.map (fun r : GRow α G => { r with geometry := r.geometry.map (e.reproject cb cp) }) buffer_gdf.rows).isEmpty = false := by
    cases h : buffer_gdf.rows with
    | nil => exact absurd h hbne
    | cons a l => rfl
  simp only [List.filter_cons, List.filter_nil, List.isEmpty_nil, Bool.not_true,
    Bool.false_eq_true, if_false, hmne, Bool.not_false, if_true, List.map_cons,
    List.map_nil, List.flatten, List.append_nil, List.isEmpty_cons]
  have main : ∀ cstar : CRS,
      (if (GDF.to_crsO e (some cstar) { rows := List.map (fun r : GRow α G => { r with geometry := r.geometry.map (e.reproject cb cp) }) buffer_gdf.rows, crs := future_dev_gdf.crs }).rows.isEmpty = true
        then (Except.ok ({ rows := [], crs := future_dev_gdf.crs }, none) : Except PyError (GDF α G × Option (GDF α G)))
        else .ok (GDF.to_crsO e (some cstar) { rows := List.map (fun r : GRow α G => { r with geometry := r.geometry.map (e.reproject cb cp) }) buffer_gdf.rows, crs := future_dev_gdf.crs },
          some (GDF.to_crsO e (some cstar) { rows := List.map (fun r : GRow α G => { r with geometry := r.geometry.map (e.reproject cb cp) }) buffer_gdf.rows, crs := future_dev_gdf.crs })))
      = .ok (buffer_gdf.to_crs e cstar, some (buffer_gdf.to_crs e cstar)) := by
    intro cstar
    rw [hcp]
    dsimp only [GDF.to_crsO]
    rw [to_crs_normal e hself { rows := List.map (fun r : GRow α G => { r with geometry := r.geometry.map (e.reproject cb cp) }) buffer_gdf.rows, crs := some cp } cp cstar rfl]
    dsimp only
    rw [List.map_map]
    have hcompose : List.map
        ((fun r : GRow α G => { r with geometry := r.geometry.map (e.reproject cp cstar) })
          ∘ fun r : GRow α G => { r with geometry := r.geometry.map (e.reproject cb cp) })
        buffer_gdf.rows
        = List.map (fun r : GRow α G => { r with geometry := r.geometry.map (e.reproject cb cstar) }) buffer_gdf.rows := by
      apply List.map_congr_left
      intro r hr
      show ({ attrs := r.attrs, geometry := (r.geometry.map (e.reproject cb cp)).map (e.reproject cp cstar) } : GRow α G) = { attrs := r.attrs, geometry := r.geometry.map (e.reproject cb cstar) }
      rw [show (r.geometry.map (e.reproject cb cp)).map (e.reproject cp cstar) = r.geometry.map (e.reproject cb cstar) from by
        rw [Option.map_map]
        cases r.geometry with
        | none => rfl
        | some g0 => show some (e.reproject cp cstar (e.reproject cb cp g0)) = some (e.reproject cb cstar g0); rw [hcomp]]
    rw [hcompose]
    have hmne2 : (List.map (fun r : GRow α G => { r with geometry := r.geometry.map (e.reproject cb cstar) }) buffer_gdf.rows).isEmpty = false := by
      rcases h : buffer_gdf.rows with _ | ⟨a, l⟩
      · exact absurd h hbne
      · rfl
    simp only [hmne2, Bool.false_eq_true, if_false]
    rw [to_crs_normal e hself buffer_gdf cb cstar hcb]
  cases output_crs with
  | some c => exact main c
  | none => exact main cp

/-- Witness for C7: the concrete polygonal buffer layer merged into the
empty planning layer resolves the output CRS to the planning CRS and returns
the reprojected buffer layer. -/
theorem merge_output_crs_resolution_planning_empty_witness :
    merge_buffers_into_planning_file intEngine testConfig polyBufferLayer
        emptyPlanningLayer 10 none
      = .ok (polyBufferLayer.to_crs intEngine ("EPSG:32611"),
             some (polyBufferLayer.to_crs intEngine ("EPSG:32611"))) :=
  merge_output_crs_resolution_planning_empty intEngine testConfig
    polyBufferLayer emptyPlanningLayer 10 none ("EPSG:32610") ("EPSG:32611")
    (fun _ _ _ => rfl) (fun _ _ _ => rfl) (fun _ _ _ => rfl)
    (fun _ _ _ => rfl) (fun _ _ _ _ => rfl) (fun _ _ => rfl)
    rfl (by decide) rfl rfl (by decide) (by decide)

theorem processed_row_invariant (ext : PyExt) (sr : CRS) (st : PipeState)
    (r : PRow) :
    (process_geojson_row ext sr st r).processed_reports = st.processed_reports := by
  unfold process_geojson_row
  dsimp only
  split <;> rfl

theorem processed_rows_fold (ext : PyExt) (sr : CRS) (rows : List PRow) :
    ∀ st : PipeState,
      (rows.foldl (process_geojson_row ext sr) st).processed_reports
        = st.processed_reports := by
  induction rows with
  | nil => intro st; rfl
  | cons a t ih =>
      intro st
      rw [List.foldl_cons, ih, processed_row_invariant]

theorem processed_txt_line_invariant (ext : PyExt) (sr : CRS) (st : PipeState)
    (line : String) :
    (process_txt_line ext sr st line).processed_reports = st.processed_reports := by
  unfold process_txt_line
  dsimp only
  split
  · rfl
  · split
    · rfl
    · split
      · split
        · rfl
        · split <;> rfl
      · rfl

theorem processed_txt_lines_fold (ext : PyExt) (sr : CRS) (lines : List String) :
    ∀ st : PipeState,
      (lines.foldl (process_txt_line ext sr) st).processed_reports
        = st.processed_reports := by
  induction lines with
  | nil => intro st; rfl
  | cons a t ih =>
      intro st
      rw [List.foldl_cons, ih, processed_txt_line_invariant]

theorem geojson_step_mono (ext : PyExt) (sr : CRS) (st : PipeState)
    (nr : String × Frame) :
    st.processed_reports ⊆ (process_geojson_report ext sr st nr).processed_reports := by
  unfold process_geojson_report
  dsimp only
  split
  · exact Finset.Subset.refl _
  · split
    · exact Finset.subset_insert _ _
    · dsimp only
      rw [processed_rows_fold]
      exact Finset.subset_insert _ _

theorem geojson_step_mem (ext : PyExt) (sr : CRS) (st : PipeState)
    (nr : String × Frame) :
    nr.1 ∈ (process_geojson_report ext sr st nr).processed_reports := by
  unfold process_geojson_report
  dsimp only
  split
  · assumption
  · split
    · exact Finset.mem_insert_self _ _
    · exact Finset.mem_insert_self _ _

theorem txt_step_mono (ext : PyExt) (sr : CRS) (st : PipeState)
    (nr : String × List String) :
    st.processed_reports ⊆ (process_txt_report ext sr st nr).processed_reports := by
  unfold process_txt_report
  dsimp only
  split
  · exact Finset.Subset.refl _
  · dsimp only
    rw [processed_txt_lines_fold]
    exact Finset.subset_insert _ _

theorem txt_step_mem (ext : PyExt) (sr : CRS) (st : PipeState)
    (nr : String × List String) :
    nr.1 ∈ (process_txt_report ext sr st nr).processed_reports := by
  unfold process_txt_report
  dsimp only
  split
  · assumption
  · exact Finset.mem_insert_self _ _

theorem geojson_fold_mono (ext : PyExt) (sr : CRS) (l : List (String × Frame)) :
    ∀ st : PipeState,
      st.processed_reports
        ⊆ (l.foldl (process_geojson_report ext sr) st).processed_reports := by
  induction l with
  | nil => intro st; exact Finset.Subset.refl _
  | cons a t ih =>
      intro st
      exact (geojson_step_mono ext sr st a).trans (ih _)

theorem txt_fold_mono (ext : PyExt) (sr : CRS) (l : List (String × List String)) :
    ∀ st : PipeState,
      st.processed_reports
        ⊆ (l.foldl (process_txt_report ext sr) st).processed_reports := by
  induction l with
  | nil => intro st; exact Finset.Subset.refl _
  | cons a t ih =>
      intro st
      exact (txt_step_mono ext sr st a).trans (ih _)

theorem geojson_fold_mem (ext : PyExt) (sr : CRS) (l : List (String × Frame))
    (p : String × Frame) :
    ∀ st : PipeState, p ∈ l →
      p.1 ∈ (l.foldl (process_geojson_report ext sr) st).processed_reports := by
  induction l with
  | nil => intro st hp; cases hp
  | cons a t ih =>
      intro st hp
      rcases List.mem_cons.mp hp with h | h
      · subst h
        exact geojson_fold_mono ext sr t _ (geojson_step_mem ext sr st p)
      · exact ih _ h

theorem txt_fold_mem (ext : PyExt) (sr : CRS) (l : List (String × List String))
    (p : String × List String) :
    ∀ st : PipeState, p ∈ l →
      p.1 ∈ (l.foldl (process_txt_report ext sr) st).processed_reports := by
  induction l with
  | nil => intro st hp; cases hp
  | cons a t ih =>
      intro st hp
      rcases List.mem_cons.mp hp with h | h
      · subst h
        exact txt_fold_mono ext sr t _ (txt_step_mem ext sr st p)
      · exact ih _ h

theorem normalize_fst (ext : PyExt) (sr : CRS) (nr : String × Frame) :
    (normalize_geojson_report ext sr nr).1 = nr.1 := by
  unfold normalize_geojson_report
  split
  · split <;> rfl
  · rfl

/-- C10.  The processed-reports set returned by `create_pipeline_features`
is a superset of the input set and contains the filename of every report in
either report list; and a GeoJSON report rejected for missing required
fields is still marked processed while changing nothing else in the state —
in particular it contributes no features (data_loader.py lines 218-223, 250
and 305). -/
theorem create_pipeline_features_processed_reports_superset
    (ext : PyExt) (geojson_reports : List (String × Frame))
    (txt_reports : List (String × List String))
    (gas_lines_gdf : Frame) (spatial_reference : CRS) (pr : Finset String) :
    pr ⊆ (create_pipeline_features ext geojson_reports txt_reports
        gas_lines_gdf spatial_reference (some pr)).1
    ∧ (∀ p ∈ geojson_reports,
        p.1 ∈ (create_pipeline_features ext geojson_reports txt_reports
          gas_lines_gdf spatial_reference (some pr)).1)
    ∧ (∀ p ∈ txt_reports,
        p.1 ∈ (create_pipeline_features ext geojson_reports txt_reports
          gas_lines_gdf spatial_reference (some pr)).1)
    ∧ (∀ (st : PipeState) (n : String) (f : Frame),
        n ∉ st.processed_reports →
        ((SCHEMA_FIELDS.filter fun c => c ≠ ("geometry")).filter
            fun c => !(f.cols.contains c)).isEmpty = false →
        process_geojson_report ext spatial_reference st (n, f)
          = { st with processed_reports := insert n st.processed_reports }) := by
  unfold create_pipeline_features
  dsimp only
  refine ⟨?_, ?_, ?_, ?_⟩
  · have haux : ∀ st : PipeState, st.processed_reports = pr →
        pr ⊆ (List.foldl (process_txt_report ext spatial_reference)
          (List.foldl (process_geojson_report ext spatial_reference) st
            (List.map (normalize_geojson_report ext spatial_reference) geojson_reports))
          txt_reports).processed_reports := by
      intro st hst
      refine Finset.Subset.trans ?_ (txt_fold_mono ext spatial_reference _ _)
      rw [← hst]
      exact geojson_fold_mono ext spatial_reference _ _
    exact haux _ rfl
  · intro p hp
    have hmem := List.mem_map_of_mem
      (normalize_geojson_report ext spatial_reference) hp
    rw [← normalize_fst ext spatial_reference p]
    exact txt_fold_mono ext spatial_reference _ _
      (geojson_fold_mem ext spatial_reference _ _ _ hmem)
  · intro p hp
    exact txt_fold_mem ext spatial_reference _ p _ hp
  · intro st n f hn hmiss
    unfold process_geojson_report
    dsimp only
    rw [if_neg hn, hmiss]
    rfl

/-- Witness for C10: one already-processed name, one GeoJSON report missing
its required fields, and one TXT report. -/
theorem create_pipeline_features_processed_reports_superset_witness :
    ({("r0")} : Finset String)
      ⊆ (create_pipeline_features extTrivial [(("r1"), rejectFrame)]
          [(("t1"), [])] emptyGasFrame ("EPSG:4326") (some {("r0")})).1
    ∧ ("r1") ∈ (create_pipeline_features extTrivial [(("r1"), rejectFrame)]
          [(("t1"), [])] emptyGasFrame ("EPSG:4326") (some {("r0")})).1
    ∧ process_geojson_report extTrivial ("EPSG:4326") witState (("r1"), rejectFrame)
        = { witState with processed_reports := insert ("r1") witState.processed_reports } :=
  ⟨(create_pipeline_features_processed_reports_superset extTrivial
      [(("r1"), rejectFrame)] [(("t1"), [])] emptyGasFrame ("EPSG:4326")
      {("r0")}).1,
   (create_pipeline_features_processed_reports_superset extTrivial
      [(("r1"), rejectFrame)] [(("t1"), [])] emptyGasFrame ("EPSG:4326")
      {("r0")}).2.1 (("r1"), rejectFrame) (by decide),
   (create_pipeline_features_processed_reports_superset extTrivial
      [(("r1"), rejectFrame)] [(("t1"), [])] emptyGasFrame ("EPSG:4326")
      {("r0")}).2.2.2 witState ("r1") rejectFrame (by decide) (by decide)⟩

end GisTool
